import Mathlib

/-!
Verification development for the DigiTexRecords OCR pipeline
(`src/ocr_engine.py` and `src/scripts/convert_pdf.py`).

The Python program is shallowly embedded: images are explicit pixel
buffers, the external OpenCV / EasyOCR collaborators are either modelled
from their documented behaviour (grayscale conversion) or abstracted as
function parameters (denoising, text recognition), and the CLI driver
`main` becomes a pure function from a path, a file-system model and the
external capabilities to the printed JSON payload plus exit code.
-/

namespace DigiTex

/-- A raster image: height, width, channel count and a flat pixel buffer
(row-major; for 3-channel images pixels are laid out as B,G,R triples,
matching OpenCV's BGR convention used throughout `ocr_engine.py`). -/
structure Img where
  height : Nat
  width : Nat
  channels : Nat
  data : List Nat
deriving Repr, DecidableEq

/-- One recognized text fragment as returned by `reader.readtext`:
a bounding quadrilateral, the text, and a confidence. -/
structure RecFragment where
  box : List (Int × Int)
  text : String
  prob : ℚ
deriving Repr, DecidableEq

/-- One entry of the `blocks` list built in ocr mode
(`ocr_engine.py` lines 136-143). -/
structure Block where
  text : String
  confidence : ℚ
  box : List (Int × Int)
  page : Nat
deriving Repr, DecidableEq

/-- The JSON payload printed by `main`: either an error object, the
preprocess-mode success object, or the ocr-mode success object. -/
inductive OcrOutput where
  | err (message : String)
  | preprocessSuccess (message : String) (processed_path : String) (page_count : Nat)
  | ocrSuccess (full_text : String) (blocks : List Block) (confidence : ℚ)
deriving Repr, DecidableEq

/-- Whether the payload has `"status": "success"`. -/
def OcrOutput.isSuccessB : OcrOutput → Bool
  | .err _ => false
  | _ => true

/-- Result of one run of `main`: the printed payload, the process exit
code (0 unless `sys.exit(1)` is reached), and the list of image files
written by `cv2.imwrite` (path and content). -/
structure MainResult where
  output : OcrOutput
  exitCode : Nat
  written : List (String × Img)
deriving Repr, DecidableEq

/-- What the file system holds at a path, folding together the extension
dispatch of `load_images_from_path` and the outcome of the external
rasterization libraries: the path is missing; it is a PDF that PyMuPDF
renders to the given page images; it is a PDF that PyMuPDF fails on with
a message; it is an image file that `cv2.imread` decodes; or it is a
file `cv2.imread` cannot decode (returns None). -/
inductive FileKind where
  | missing
  | pdfPages (pages : List Img)
  | pdfBroken (msg : String)
  | imageFile (img : Img)
  | unreadableImage
deriving Repr, DecidableEq

/-- `load_images_from_path` (`ocr_engine.py` lines 14-46) as a function
of the file-system outcome: a parsed PDF yields its page list (possibly
empty), a PDF-library failure yields the wrapped message, a decodable
image yields a one-element list, an undecodable file yields the fixed
message of line 43.  (A missing path behaves like an undecodable image,
though `main` never reaches this case for a missing path.) -/
def load_images_from_path : FileKind → Except String (List Img)
  | .missing => .error "Failed to load image (unsupported format?)"
  | .pdfPages pages => .ok pages
  | .pdfBroken m => .error ("Error loading file: " ++ m)
  | .imageFile i => .ok [i]
  | .unreadableImage => .error "Failed to load image (unsupported format?)"

/-- OpenCV's fixed-point BGR-to-luma formula used by
`cvtColor(..., COLOR_BGR2GRAY)`: (R*4899 + G*9617 + B*1868 + 8192) >> 14. -/
def lumaFix (b g r : Nat) : Nat := (r * 4899 + g * 9617 + b * 1868 + 8192) / 16384

/-- Per-pixel grayscale reduction of a flat BGR buffer. -/
def grayData : List Nat → List Nat
  | b :: g :: r :: rest => lumaFix b g r :: grayData rest
  | _ => []

/-- `cv2.cvtColor(img, COLOR_BGR2GRAY)` on a 3-channel BGR image:
a single-channel image of the same dimensions. -/
def gray3 (i : Img) : Img := ⟨i.height, i.width, 1, grayData i.data⟩

/-- `preprocess_image_array` (`ocr_engine.py` lines 48-69): grayscale
reduction followed by `fastNlMeansDenoising` (the denoiser is an
external collaborator, abstracted as a parameter).  The images this
program feeds in come from `imread`/`imdecode` with `IMREAD_COLOR` and
are 3-channel; `cvtColor BGR2GRAY` raises on single-channel input, and
the `except` clause converts any such exception into `(None, message)`.
A `None` input is rejected with "Empty image" (line 54). -/
def preprocess_image_array (denoise : Img → Img) : Option Img → Except String Img
  | none => .error "Empty image"
  | some i =>
      if i.channels = 3 then .ok (denoise (gray3 i))
      else .error "cvtColor: Invalid number of channels in input image"

/-- The image actually handed to recognition for a page in ocr mode
(`ocr_engine.py` lines 130-131): the preprocessed image, or the raw
page when preprocessing failed. -/
def ocrInput (denoise : Img → Img) (img : Img) : Img :=
  match preprocess_image_array denoise (some img) with
  | .ok p => p
  | .error _ => img

/-- The page-break marker appended in ocr mode (`ocr_engine.py`
line 148): `f"\n--- Page N ---\n"`. -/
def pageMarker (n : Nat) : String := "\n--- Page " ++ toString n ++ " ---\n"

/-- The `full_text_lines` accumulation of the ocr-mode loop
(`ocr_engine.py` lines 128-148): for each page, the texts of its
fragments in recognition order, then - when the document has more
than one page - the page-break marker for that page. -/
def ocrTextLoop (denoise : Img → Img) (readtext : Img → List RecFragment)
    (multi : Bool) : Nat → List Img → List String
  | _, [] => []
  | idx, img :: rest =>
      ((readtext (ocrInput denoise img)).map RecFragment.text)
        ++ (if multi then [pageMarker (idx + 1)] else [])
        ++ ocrTextLoop denoise readtext multi (idx + 1) rest

/-- The `all_blocks` accumulation of the ocr-mode loop
(`ocr_engine.py` lines 136-143), pages numbered from 1. -/
def ocrBlockLoop (denoise : Img → Img) (readtext : Img → List RecFragment) :
    Nat → List Img → List Block
  | _, [] => []
  | idx, img :: rest =>
      ((readtext (ocrInput denoise img)).map
        (fun f => ⟨f.text, f.prob, f.box, idx + 1⟩))
        ++ ocrBlockLoop denoise readtext (idx + 1) rest

/-- The final `full_text_lines` list for a document. -/
def ocrLines (denoise : Img → Img) (readtext : Img → List RecFragment)
    (images : List Img) : List String :=
  ocrTextLoop denoise readtext (Nat.blt 1 images.length) 0 images

/-- The final `all_blocks` list for a document. -/
def ocrBlocks (denoise : Img → Img) (readtext : Img → List RecFragment)
    (images : List Img) : List Block :=
  ocrBlockLoop denoise readtext 0 images

/-- `"\n".join(full_text_lines)` (`ocr_engine.py` line 152). -/
def ocrFullText (denoise : Img → Img) (readtext : Img → List RecFragment)
    (images : List Img) : String :=
  String.intercalate "\n" (ocrLines denoise readtext images)

/-- The per-page fragment-text sequences, before aggregation: for each
page, the texts returned by recognition in recognition order. -/
def pageTexts (denoise : Img → Img) (readtext : Img → List RecFragment)
    (images : List Img) : List (List String) :=
  images.map (fun img => (readtext (ocrInput denoise img)).map RecFragment.text)

/-- Last index of a character in a character list, if any. -/
def rfindIdx (c : Char) (l : List Char) : Option Nat :=
  (l.enum.filterMap (fun p => if p.2 = c then some p.1 else none)).getLast?

/-- The root part of Python's `os.path.splitext` (posix rules): split at
the last dot, unless that dot lies before the last path separator or
every character of the basename up to the dot is itself a dot (so
dotfiles like ".bashrc" keep their name whole). -/
def splitextStem (p : String) : String :=
  match rfindIdx '.' p.data with
  | none => p
  | some d =>
      let s := match rfindIdx '/' p.data with
        | none => 0
        | some k => k + 1
      if d < s then p
      else if ((p.data.drop s).take (d - s)).all (fun c => c = '.') then p
      else String.mk (p.data.take d)

/-- The preprocess-mode branch of `main` (`ocr_engine.py` lines
98-119): normalize the first page only; on success write the result as
`<stem>_processed.jpg` and report that path and the page count; on
failure print the error (note: this branch performs no `sys.exit`, so
the exit code stays 0 either way). -/
def preprocessModeRun (path : String) (denoise : Img → Img)
    (images : List Img) : MainResult :=
  match preprocess_image_array denoise images.head? with
  | .ok processed =>
      let outPath := splitextStem path ++ "_processed.jpg"
      ⟨.preprocessSuccess
          ("Preprocessing complete (" ++ toString images.length ++ " pages)")
          outPath images.length,
        0, [(outPath, processed)]⟩
  | .error e => ⟨.err e, 0, []⟩

/-- The ocr-mode branch of `main` (`ocr_engine.py` lines 121-155):
always a success payload with the joined text, the block list, and the
hard-coded top-level confidence 0.95. -/
def ocrModeRun (denoise : Img → Img) (readtext : Img → List RecFragment)
    (images : List Img) : MainResult :=
  ⟨.ocrSuccess (ocrFullText denoise readtext images)
      (ocrBlocks denoise readtext images) (95 / 100 : ℚ),
    0, []⟩

/-- The modes accepted by the argument parser. -/
inductive Mode where
  | preprocess
  | ocr
  | full
deriving Repr, DecidableEq

/-- The `main` driver (`ocr_engine.py` lines 71-163) as a function of
the mode, the path, the file-system model and the two external
capabilities: missing path and load failures exit 1 with an error
payload; an empty page list exits 1 with "No images extracted from
file"; otherwise the selected mode branch runs. -/
def mainRun (mode : Mode) (path : String) (world : String → FileKind)
    (denoise : Img → Img) (readtext : Img → List RecFragment) : MainResult :=
  match world path with
  | .missing => ⟨.err ("File not found: " ++ path), 1, []⟩
  | k =>
      match load_images_from_path k with
      | .error e => ⟨.err e, 1, []⟩
      | .ok images =>
          if images.length = 0 then
            ⟨.err "No images extracted from file", 1, []⟩
          else
            match mode with
            | .preprocess => preprocessModeRun path denoise images
            | .ocr => ocrModeRun denoise readtext images
            | .full => ⟨.err "Please use --mode preprocess or --mode ocr", 0, []⟩

/-- The flattened text of an ocr-mode success payload, if any. -/
def fullTextOf (r : MainResult) : Option String :=
  match r.output with
  | .ocrSuccess t _ _ => some t
  | _ => none

/-- The top-level confidence of an ocr-mode success payload, if any. -/
def confidenceOf (r : MainResult) : Option ℚ :=
  match r.output with
  | .ocrSuccess _ _ c => some c
  | _ => none

/-! ### String helpers (substring containment, used to state "the
message references the path") -/

/-- Whether `needle` occurs as a contiguous substring of the second
list. -/
def substrB (needle : List Char) : List Char → Bool
  | [] => needle.isEmpty
  | c :: cs => needle.isPrefixOf (c :: cs) || substrB needle cs

/-- Whether string `n` occurs as a contiguous substring of string `h`. -/
def strIncludes (n h : String) : Bool := substrB n.data h.data

/-! ### Field extraction (spec-modelled)

The FieldExtractor of spec section 4.5 lives in application code that is
not among the provided source files (only `ocr_engine.py` and
`scripts/convert_pdf.py` are); the definitions below are modelled from
the spec. -/

/-- Whitespace, for normalization and token capture. -/
def isWsChar (c : Char) : Bool :=
  c = ' ' || c = '\n' || c = '\t' || c = '\r'

/-- Modelled from the spec: the bidirectional/zero-width
joiner-class invisible characters stripped by normalization
(spec section 4.5 step 1). -/
def isInvisibleChar (c : Char) : Bool :=
  c = Char.ofNat 0x200B || c = Char.ofNat 0x200C || c = Char.ofNat 0x200D ||
  c = Char.ofNat 0x200E || c = Char.ofNat 0x200F || c = Char.ofNat 0xFEFF

/-- Drop trailing whitespace of a character list. -/
def trimTrailing (l : List Char) : List Char :=
  (l.reverse.dropWhile isWsChar).reverse

/-- Collapse whitespace runs to single spaces; the Bool tracks whether
the previous character was whitespace (start counts as whitespace, so
leading whitespace is dropped). -/
def collapseWsAux : Bool → List Char → List Char
  | _, [] => []
  | prevWs, c :: cs =>
      if isWsChar c then
        if prevWs then collapseWsAux true cs
        else ' ' :: collapseWsAux true cs
      else c :: collapseWsAux false cs

/-- Modelled from the spec: text normalization of spec section 4.5
step 1 - strip invisible characters, collapse all whitespace runs
(including newlines) to single spaces, trim both ends. -/
def normalizeText (s : String) : String :=
  String.mk (trimTrailing (collapseWsAux true
    (s.data.filter (fun c => !isInvisibleChar c))))

/-- Case-insensitive prefix match returning the remainder after the
matched label. -/
def matchPrefixCI : List Char → List Char → Option (List Char)
  | [], rest => some rest
  | _ :: _, [] => none
  | l :: ls, c :: cs =>
      if l.toLower = c.toLower then matchPrefixCI ls cs else none

/-- Find the first (case-insensitive) occurrence of a label and return
the text that follows it. -/
def findAfterLabel (label : List Char) : List Char → Option (List Char)
  | [] => matchPrefixCI label []
  | c :: cs =>
      match matchPrefixCI label (c :: cs) with
      | some r => some r
      | none => findAfterLabel label cs

/-- Separator characters between a label and its value (spec section
4.5 step 2: "a separator and a captured value token"). -/
def isSepChar (c : Char) : Bool := c = ' ' || c = ':' || c = '.'

/-- Modelled from the spec: one labeled-field pattern capturing a single
value token - the label (case-insensitively), a separator run, then the
longest run of non-whitespace characters; an empty capture is no match. -/
def extractToken (label : String) (text : String) : Option String :=
  match findAfterLabel label.data text.data with
  | none => none
  | some r =>
      let v := (r.dropWhile isSepChar).takeWhile (fun c => !isWsChar c)
      if v.isEmpty then none else some (String.mk v)

/-- Modelled from the spec: the owner-name pattern, matched against the
un-normalized text so that an embedded newline terminates the captured
name (spec section 4.5 step 1); captures the rest of the line after the
label, trailing whitespace trimmed. -/
def extractLineVal (label : String) (text : String) : Option String :=
  match findAfterLabel label.data text.data with
  | none => none
  | some r =>
      let v := trimTrailing ((r.dropWhile isSepChar).takeWhile (fun c => c ≠ '\n'))
      if v.isEmpty then none else some (String.mk v)

/-- Last-match-wins over an ordered pattern list (spec section 4.5
step 2): the value of the last pattern that matched, or the empty
default. -/
def lastMatchStr (cands : List (Option String)) : String :=
  ((cands.filterMap (fun x => x)).getLast?).getD ""

/-- Modelled from the spec: priority-ordered single-label document
classification (spec section 4.5 step 3) - a "sale"-class phrase, then
a "patta"-class phrase, then an "order"-class phrase, regional-script
keywords (the spec scenario fixes that the English label "Patta No"
does not trigger classification); no match yields "Unknown". -/
def classifyDoc (t : String) : String :=
  if strIncludes "விற்பனை" t then "Sale Deed"
  else if strIncludes "பட்டா" t then "Patta"
  else if strIncludes "உத்தரவு" t then "Order"
  else "Unknown"

/-- The fixed-schema record of spec section 3 (FieldRecord). -/
structure FieldRecord where
  documentType : String
  pattaNumber : String
  batchNumber : String
  surveyNumber : String
  ownerName : String
  village : String
  taluk : String
  district : String
  date : String
  summary : String
deriving Repr, DecidableEq

/-- Modelled from the spec: summary synthesis (spec section 4.5
step 4) - pipe-delimited, documentType always first, then pattaNumber,
surveyNumber, ownerName, each included only if non-empty. -/
def summaryOf (r : FieldRecord) : String :=
  "Document Type: " ++ r.documentType
    ++ (if r.pattaNumber = "" then "" else " | Patta No: " ++ r.pattaNumber)
    ++ (if r.surveyNumber = "" then "" else " | Survey No: " ++ r.surveyNumber)
    ++ (if r.ownerName = "" then "" else " | Owner: " ++ r.ownerName)

/-- Modelled from the spec: the FieldExtractor contract
`extract(flattenedText) -> FieldRecord` of spec section 4.5 - the
FieldExtractor is not among the provided source files, so the ordered
bilingual pattern lists (a regional-script label then its English
synonym, last-match-wins), the classification keywords and the summary
synthesis follow the spec text; the owner pattern runs on the
un-normalized input, all other patterns on the normalized one. -/
def extract (flattened : String) : FieldRecord :=
  let t := normalizeText flattened
  let patta := lastMatchStr [extractToken "பட்டா எண்" t, extractToken "Patta No" t]
  let batch := lastMatchStr [extractToken "தொகுப்பு எண்" t, extractToken "Batch No" t]
  let survey := lastMatchStr [extractToken "சர்வே எண்" t, extractToken "Survey No" t]
  let owner := lastMatchStr
    [extractLineVal "உரிமையாளர்" flattened, extractLineVal "Owner" flattened]
  let base : FieldRecord :=
    ⟨classifyDoc t, patta, batch, survey, owner, "", "", "", "", ""⟩
  { base with summary := summaryOf base }

/-! ### Spec-model of the normalizer with orientation correction, for
comparison against the source (claim C4) -/

/-- Modelled from the spec: the normalization pipeline of spec section
4.2 including step 3, orientation correction - after channel reduction
and denoising, a probe recognition pass estimates a skew angle (in
degrees; `none` when the probe fails, which is swallowed), and if the
absolute estimated angle exceeds 1 degree the page is rotated by the
negative of that angle.  The probe and the affine-rotation capability
are external collaborators, passed as parameters.  This definition
exists to be compared with `preprocess_image_array`, the function the
source actually contains. -/
def preprocessSpecMdl (probe : Img → Option Int) (rotate : Img → Int → Img)
    (denoise : Img → Img) : Option Img → Except String Img
  | none => .error "Empty image"
  | some i =>
      if i.channels = 3 then
        let d := denoise (gray3 i)
        match probe d with
        | some θ => if 1 < θ.natAbs then .ok (rotate d (-θ)) else .ok d
        | none => .ok d
      else .error "cvtColor: Invalid number of channels in input image"

/-! ### Concrete instances used by witnesses and counterexamples -/

/-- A 1x1 3-channel test image. -/
def img3 : Img := ⟨1, 1, 3, [10, 20, 30]⟩

/-- A 1x1 single-channel image (preprocessing it fails at grayscale
conversion). -/
def imgGray1 : Img := ⟨1, 1, 1, [7]⟩

/-- A 1x2 3-channel image with one black and one white pixel. -/
def imgC4 : Img := ⟨1, 2, 3, [0, 0, 0, 255, 255, 255]⟩

/-- A concrete recognition fragment. -/
def fragT : RecFragment := ⟨[(0, 0), (1, 0), (1, 1), (0, 1)], "t", 1 / 2⟩

/-- A concrete recognition capability returning one fragment per page. -/
def rtW : Img → List RecFragment := fun _ => [fragT]

/-- A probe instance estimating a 5-degree skew on every page. -/
def probeC4 : Img → Option Int := fun _ => some 5

/-- A concrete instance of the external affine-rotation capability:
the identity at angle 0 and nontrivial at any other angle (as a genuine
rotation is), here permuting the pixel buffer. -/
def rotateC4 : Img → Int → Img :=
  fun i θ => if θ = 0 then i else ⟨i.height, i.width, i.channels, i.data.reverse⟩

/-- A 1x1 3-channel black page (its grayscale data is `[0]`). -/
def imgHello : Img := ⟨1, 1, 3, [0, 0, 0]⟩

/-- A 1x1 3-channel white page (its grayscale data is `[255]`). -/
def imgWorld : Img := ⟨1, 1, 3, [255, 255, 255]⟩

/-- A recognition capability reading "Hello" on the black page's
grayscale and "World" elsewhere. -/
def rtHW : Img → List RecFragment :=
  fun i => if i.data = [0] then [⟨[], "Hello", 9 / 10⟩] else [⟨[], "World", 9 / 10⟩]

/-- A file system holding a 2-page PDF everywhere. -/
def worldC1 : String → FileKind := fun _ => .pdfPages [imgHello, imgWorld]

/-- A file system holding a zero-page PDF everywhere. -/
def worldC2 : String → FileKind := fun _ => .pdfPages []

/-- A file system where "a.png" exists but cannot be decoded and every
other path is missing. -/
def worldC7 : String → FileKind :=
  fun p => if p = "a.png" then .unreadableImage else .missing

/-- A file system with no files at all. -/
def worldMissing : String → FileKind := fun _ => .missing

/-- A file system holding a decodable single image everywhere. -/
def world8 : String → FileKind := fun _ => .imageFile img3

end DigiTex

namespace DigiTex

/-! ### Helper lemmas -/

/-- A list is a prefix of itself (Boolean form). -/
theorem isPrefixOf_self_eq (l : List Char) : l.isPrefixOf l = true := by
  induction l with
  | nil => rfl
  | cons c cs ih => simp [List.isPrefixOf, ih]

/-- A list occurs as a substring of itself. -/
theorem substrB_self_true (l : List Char) : substrB l l = true := by
  cases l with
  | nil => rfl
  | cons c cs => simp [substrB, isPrefixOf_self_eq]

/-- A suffix occurs as a substring of the whole. -/
theorem substrB_append_self (pre l : List Char) : substrB l (pre ++ l) = true := by
  induction pre with
  | nil => simpa using substrB_self_true l
  | cons c cs ih => simp [substrB, ih]

/-- The page-by-page fragment texts form an order-preserving
subsequence of the accumulated `full_text_lines` list: the loop only
interleaves page markers, dropping and reordering nothing. -/
theorem joinTexts_sublist (denoise : Img → Img) (readtext : Img → List RecFragment)
    (multi : Bool) :
    ∀ (idx : Nat) (images : List Img),
      List.Sublist
        ((images.map fun img => (readtext (ocrInput denoise img)).map RecFragment.text).flatten)
        (ocrTextLoop denoise readtext multi idx images)
  | _, [] => by simp [ocrTextLoop]
  | idx, img :: rest => by
      have ih := joinTexts_sublist denoise readtext multi (idx + 1) rest
      simp only [List.map_cons, List.flatten, ocrTextLoop]
      rw [List.append_assoc]
      exact List.Sublist.append (List.Sublist.refl _)
        (ih.trans (List.sublist_append_right _ _))

/-! ### Claim C1 -/

/-- C1 counterexample: on a concrete 2-page document whose pages read
"Hello" and "World", the flattened text is not the claimed marker-free
string: the loop appends a page marker after every page, including the
last one. -/
theorem c1_counterexample :
    fullTextOf (mainRun .ocr "doc.pdf" worldC1 id rtHW) ≠
      some "Hello\n\n--- Page 1 ---\n\nWorld" := by decide

/-- C1 (amended): for every 2-page input processed in ocr mode where
page 1 yields the single fragment "Hello" and page 2 yields the single
fragment "World", the flattened text equals
"Hello\n\n--- Page 1 ---\n\nWorld\n\n--- Page 2 ---\n": the marker is
appended after every page, the last one included. -/
theorem c1_amended (path : String) (world : String → FileKind) (denoise : Img → Img)
    (readtext : Img → List RecFragment) (i1 i2 : Img) (b1 b2 : List (Int × Int))
    (p1 p2 : ℚ)
    (hw : world path = .pdfPages [i1, i2])
    (h1 : readtext (ocrInput denoise i1) = [⟨b1, "Hello", p1⟩])
    (h2 : readtext (ocrInput denoise i2) = [⟨b2, "World", p2⟩]) :
    fullTextOf (mainRun .ocr path world denoise readtext) =
      some "Hello\n\n--- Page 1 ---\n\nWorld\n\n--- Page 2 ---\n" := by
  have hm : mainRun .ocr path world denoise readtext = ocrModeRun denoise readtext [i1, i2] := by
    unfold mainRun
    rw [hw]
    rfl
  rw [hm]
  show some (ocrFullText denoise readtext [i1, i2]) = _
  unfold ocrFullText ocrLines
  show some (String.intercalate "\n" (ocrTextLoop denoise readtext true 0 [i1, i2])) = _
  simp only [ocrTextLoop, h1, h2]
  rfl

/-- C1 witness: the amended statement at the concrete 2-page world. -/
theorem c1_witness :
    fullTextOf (mainRun .ocr "doc.pdf" worldC1 id rtHW) =
      some "Hello\n\n--- Page 1 ---\n\nWorld\n\n--- Page 2 ---\n" :=
  c1_amended "doc.pdf" worldC1 id rtHW imgHello imgWorld [] [] (9 / 10) (9 / 10)
    rfl rfl rfl

/-! ### Claim C2 -/

/-- C2 counterexample: a successfully parsed zero-page document makes
ocr mode print an error payload and exit 1, not a success with empty
content. -/
theorem c2_counterexample :
    (mainRun .ocr "e.pdf" worldC2 id rtW).output = .err "No images extracted from file" ∧
    (mainRun .ocr "e.pdf" worldC2 id rtW).output.isSuccessB = false ∧
    (mainRun .ocr "e.pdf" worldC2 id rtW).exitCode = 1 :=
  ⟨rfl, rfl, rfl⟩

/-- C2 (amended): for every input that parses to zero pages, every mode
(the check precedes mode dispatch) returns the failure payload
"No images extracted from file" with exit code 1. -/
theorem c2_amended (mode : Mode) (path : String) (world : String → FileKind)
    (denoise : Img → Img) (readtext : Img → List RecFragment)
    (hw : world path = .pdfPages []) :
    mainRun mode path world denoise readtext =
      ⟨.err "No images extracted from file", 1, []⟩ := by
  unfold mainRun
  rw [hw]
  rfl

/-- C2 witness: the amended statement at the concrete zero-page world. -/
theorem c2_witness :
    mainRun .ocr "e.pdf" worldC2 id rtW =
      ⟨.err "No images extracted from file", 1, []⟩ :=
  c2_amended .ocr "e.pdf" worldC2 id rtW rfl

/-! ### Claim C3 -/

/-- C3: the spec-modelled field extractor is a total function, and on
"Patta No: 1234 Survey No: 56/2 Owner: A. Kumar" it yields
pattaNumber "1234", surveyNumber "56/2", ownerName "A. Kumar",
documentType "Unknown" and the pipe-delimited summary. -/
theorem c3_extract_scenario :
    extract "Patta No: 1234 Survey No: 56/2 Owner: A. Kumar" =
      { documentType := "Unknown", pattaNumber := "1234", batchNumber := "",
        surveyNumber := "56/2", ownerName := "A. Kumar", village := "", taluk := "",
        district := "", date := "",
        summary := "Document Type: Unknown | Patta No: 1234 | Survey No: 56/2 | Owner: A. Kumar" } := by
  rfl

/-! ### Claim C4 -/

/-- C4 counterexample: the spec-modelled normalizer (probe estimating a
5-degree skew, which exceeds the 1-degree threshold, with a concrete
instance of the rotation capability that is nontrivial at that angle)
disagrees with the source `preprocess_image_array` on a concrete page:
the source never rotates. -/
theorem c4_counterexample :
    1 < (5 : Int).natAbs ∧
    preprocessSpecMdl probeC4 rotateC4 id (some imgC4) =
      Except.ok ⟨1, 2, 1, [255, 0]⟩ ∧
    preprocess_image_array id (some imgC4) = Except.ok ⟨1, 2, 1, [0, 255]⟩ ∧
    (⟨1, 2, 1, [255, 0]⟩ : Img) ≠ ⟨1, 2, 1, [0, 255]⟩ :=
  ⟨by decide, rfl, rfl, by decide⟩

/-- C4 (amended): normalization performs only channel reduction and
denoising - for every well-formed (3-channel) page the output is
exactly the denoised grayscale, with no probe and no rotation, and any
conversion failure is returned as an error value rather than raised. -/
theorem c4_amended (denoise : Img → Img) (img : Img) (h : img.channels = 3) :
    preprocess_image_array denoise (some img) = Except.ok (denoise (gray3 img)) := by
  simp only [preprocess_image_array]
  rw [if_pos h]

/-- C4 witness: the amended statement at a concrete 3-channel page. -/
theorem c4_witness :
    imgC4.channels = 3 ∧
    preprocess_image_array id (some imgC4) = Except.ok (id (gray3 imgC4)) :=
  ⟨rfl, c4_amended id imgC4 rfl⟩

/-! ### Claim C5 -/

/-- C5 counterexample: normalization of a concrete 3-channel page
succeeds, but normalizing its own output is not a fixed point - the
second pass fails at grayscale conversion (single-channel input), so it
does not return the page unchanged. -/
theorem c5_counterexample :
    preprocess_image_array id (some img3) = Except.ok (gray3 img3) ∧
    preprocess_image_array id (some (gray3 img3)) ≠ Except.ok (gray3 img3) :=
  ⟨rfl, fun h => Except.noConfusion h⟩

/-- C5 (amended): for every channel-preserving denoiser, whenever
normalization succeeds on a page its output is single-channel, and
re-running the pipeline on that output fails with the channel error
(returned gracefully as an error value): normalization is not
idempotent on its own output. -/
theorem c5_amended (denoise : Img → Img) (hd : ∀ i, (denoise i).channels = i.channels)
    (img g : Img) (h : preprocess_image_array denoise (some img) = Except.ok g) :
    preprocess_image_array denoise (some g) =
      Except.error "cvtColor: Invalid number of channels in input image" := by
  simp only [preprocess_image_array] at h ⊢
  by_cases hc : img.channels = 3
  · rw [if_pos hc] at h
    injection h with hg
    have hch : g.channels = 1 := by
      rw [← hg, hd (gray3 img)]
      rfl
    rw [if_neg (by simp [hch])]
  · rw [if_neg hc] at h
    exact Except.noConfusion h

/-- C5 witness: the amended statement at a concrete page with the
identity denoiser. -/
theorem c5_witness :
    preprocess_image_array id (some (gray3 img3)) =
      Except.error "cvtColor: Invalid number of channels in input image" :=
  c5_amended id (fun _ => rfl) img3 (gray3 img3) rfl

/-! ### Claim C6 -/

/-- C6: the flattened text is a pure, order-preserving projection of
the fragment sequence - the page-by-page fragment texts form an
order-preserving subsequence of the accumulated line list (nothing
dropped or reordered), and for an exactly-one-page input the line list
is exactly that page's fragment texts, so the flattened text is the
bare newline join with no page-break marker. -/
theorem c6_aggregation (denoise : Img → Img) (readtext : Img → List RecFragment)
    (images : List Img) :
    List.Sublist (pageTexts denoise readtext images).flatten
      (ocrLines denoise readtext images) ∧
    ∀ i, images = [i] →
      ocrLines denoise readtext images =
        (readtext (ocrInput denoise i)).map RecFragment.text ∧
      ocrFullText denoise readtext images =
        String.intercalate "\n" ((readtext (ocrInput denoise i)).map RecFragment.text) := by
  constructor
  · exact joinTexts_sublist denoise readtext _ 0 images
  · intro i hi
    subst hi
    have h1 : ocrLines denoise readtext [i] =
        (readtext (ocrInput denoise i)).map RecFragment.text := by
      show ocrTextLoop denoise readtext false 0 [i] = _
      simp [ocrTextLoop]
    refine ⟨h1, ?_⟩
    unfold ocrFullText
    rw [h1]

/-- C6 witness: the aggregation properties at a concrete one-page
document. -/
theorem c6_witness :
    List.Sublist (pageTexts id rtW [img3]).flatten (ocrLines id rtW [img3]) ∧
    (ocrLines id rtW [img3] = (rtW (ocrInput id img3)).map RecFragment.text ∧
     ocrFullText id rtW [img3] =
       String.intercalate "\n" ((rtW (ocrInput id img3)).map RecFragment.text)) :=
  ⟨(c6_aggregation id rtW [img3]).1, (c6_aggregation id rtW [img3]).2 img3 rfl⟩

/-! ### Claim C7 -/

/-- C7 counterexample: a path that exists but holds an unreadable image
makes ocr mode fail with the fixed message
"Failed to load image (unsupported format?)", which does not reference
the path - so the claim that the failure message references the path
for every missing-or-unreadable input is false (the exit code is
non-zero, as claimed). -/
theorem c7_counterexample :
    (mainRun .ocr "a.png" worldC7 id rtW).output =
      .err "Failed to load image (unsupported format?)" ∧
    (mainRun .ocr "a.png" worldC7 id rtW).exitCode = 1 ∧
    strIncludes "a.png" "Failed to load image (unsupported format?)" = false := by
  refine ⟨rfl, rfl, ?_⟩
  decide

/-- C7 (amended): in every mode, a missing path yields the failure
payload "File not found: <path>" - whose message does reference the
path - with exit code 1; an existing but undecodable image yields the
fixed failure payload "Failed to load image (unsupported format?)"
(not referencing the path), also with exit code 1. -/
theorem c7_amended (mode : Mode) (path : String) (world : String → FileKind)
    (denoise : Img → Img) (readtext : Img → List RecFragment) :
    (world path = .missing →
      mainRun mode path world denoise readtext =
        ⟨.err ("File not found: " ++ path), 1, []⟩ ∧
      strIncludes path ("File not found: " ++ path) = true) ∧
    (world path = .unreadableImage →
      mainRun mode path world denoise readtext =
        ⟨.err "Failed to load image (unsupported format?)", 1, []⟩) := by
  constructor
  · intro hw
    constructor
    · unfold mainRun
      rw [hw]
    · show substrB path.data ("File not found: ".data ++ path.data) = true
      exact substrB_append_self _ _
  · intro hw
    unfold mainRun
    rw [hw]
    rfl

/-- C7 witness: the amended statement at a concrete missing path and at
the concrete unreadable-image path. -/
theorem c7_witness :
    (mainRun .ocr "x.pdf" worldMissing id rtW =
        ⟨.err ("File not found: " ++ "x.pdf"), 1, []⟩ ∧
      strIncludes "x.pdf" ("File not found: " ++ "x.pdf") = true) ∧
    mainRun .ocr "a.png" worldC7 id rtW =
      ⟨.err "Failed to load image (unsupported format?)", 1, []⟩ :=
  ⟨(c7_amended .ocr "x.pdf" worldMissing id rtW).1 rfl,
   (c7_amended .ocr "a.png" worldC7 id rtW).2 rfl⟩

/-! ### Claim C8 -/

/-- C8: whenever ocr mode produces a success payload, its top-level
confidence is the hard-coded 0.95, independent of the per-fragment
confidences returned by recognition (which appear only in the block
entries). -/
theorem c8_confidence (path : String) (world : String → FileKind) (denoise : Img → Img)
    (readtext : Img → List RecFragment) (ft : String) (blocks : List Block) (c : ℚ)
    (h : (mainRun .ocr path world denoise readtext).output = .ocrSuccess ft blocks c) :
    c = 95 / 100 := by
  unfold mainRun at h
  cases hw : world path with
  | missing =>
      rw [hw] at h
      exact absurd h (by simp)
  | pdfPages pages =>
      rw [hw] at h
      simp only [load_images_from_path] at h
      by_cases hl : pages.length = 0
      · rw [if_pos hl] at h
        exact absurd h (by simp)
      · rw [if_neg hl] at h
        simp only [ocrModeRun] at h
        injection h with h1 h2 h3
        exact h3.symm
  | pdfBroken m =>
      rw [hw] at h
      exact absurd h (by simp [load_images_from_path])
  | imageFile i =>
      rw [hw] at h
      simp only [load_images_from_path] at h
      rw [if_neg (by simp)] at h
      simp only [ocrModeRun] at h
      injection h with h1 h2 h3
      exact h3.symm
  | unreadableImage =>
      rw [hw] at h
      exact absurd h (by simp [load_images_from_path])

/-- C8 witness: the hypothesis holds at a concrete single-image world,
where the per-fragment confidence is 1/2 yet the payload confidence is
0.95. -/
theorem c8_witness : (95 : ℚ) / 100 = 95 / 100 :=
  c8_confidence "d.png" world8 id rtW "t"
    [⟨"t", 1 / 2, [(0, 0), (1, 0), (1, 1), (0, 1)], 1⟩] (95 / 100) rfl

/-! ### Claim C9 -/

/-- C9: when preprocessing a page fails, ocr mode falls back to the raw
page - recognition receives the un-preprocessed image, and the loop
still emits that page's fragment texts (and marker, for multi-page
documents) exactly as for any other page: the failure neither aborts
the run nor skips the page. -/
theorem c9_fallback (denoise : Img → Img) (img : Img) (e : String)
    (h : preprocess_image_array denoise (some img) = Except.error e) :
    ocrInput denoise img = img ∧
    ∀ (readtext : Img → List RecFragment) (multi : Bool) (idx : Nat) (rest : List Img),
      ocrTextLoop denoise readtext multi idx (img :: rest) =
        (readtext img).map RecFragment.text
          ++ (if multi then [pageMarker (idx + 1)] else [])
          ++ ocrTextLoop denoise readtext multi (idx + 1) rest := by
  have hi : ocrInput denoise img = img := by
    unfold ocrInput
    rw [h]
  exact ⟨hi, fun readtext multi idx rest => by simp only [ocrTextLoop, hi]⟩

/-- C9 witness: a single-channel page makes preprocessing fail, and
recognition then runs on that raw page. -/
theorem c9_witness :
    ocrInput id imgGray1 = imgGray1 ∧
    ocrTextLoop id rtW true 0 [imgGray1] =
      (rtW imgGray1).map RecFragment.text
        ++ (if true then [pageMarker 1] else [])
        ++ ocrTextLoop id rtW true 1 [] :=
  ⟨(c9_fallback id imgGray1 "cvtColor: Invalid number of channels in input image" rfl).1,
   (c9_fallback id imgGray1 "cvtColor: Invalid number of channels in input image" rfl).2
     rtW true 0 []⟩

/-! ### Claim C10 -/

/-- C10: a successful preprocess-mode run normalizes only the first
page (the result depends only on the head and the page count), writes
the preview to the path obtained by stripping the extension and
appending "_processed.jpg", and reports exactly that path and the total
page count in the success payload with exit code 0; and the driver
dispatches preprocess mode to exactly this branch. -/
theorem c10_preprocess (path : String) (denoise : Img → Img) (images : List Img)
    (g : Img) (h : preprocess_image_array denoise images.head? = Except.ok g) :
    preprocessModeRun path denoise images =
      ⟨.preprocessSuccess
          ("Preprocessing complete (" ++ toString images.length ++ " pages)")
          (splitextStem path ++ "_processed.jpg") images.length,
        0, [(splitextStem path ++ "_processed.jpg", g)]⟩ ∧
    (∀ images' : List Img, images.head? = images'.head? →
      images.length = images'.length →
      preprocessModeRun path denoise images = preprocessModeRun path denoise images') ∧
    ∀ (world : String → FileKind) (readtext : Img → List RecFragment),
      world path = .pdfPages images → images ≠ [] →
        mainRun .preprocess path world denoise readtext =
          preprocessModeRun path denoise images := by
  refine ⟨?_, ?_, ?_⟩
  · unfold preprocessModeRun
    rw [h]
  · intro images' h1 h2
    unfold preprocessModeRun
    rw [h1, h2]
  · intro world readtext hw hne
    unfold mainRun
    rw [hw]
    simp only [load_images_from_path]
    rw [if_neg (fun hl => hne (List.length_eq_zero.mp hl))]

/-- C10 witness: the statement at a concrete one-page document at path
"w.png", whose preview path is "w_processed.jpg". -/
theorem c10_witness :
    preprocessModeRun "w.png" id [img3] =
      ⟨.preprocessSuccess "Preprocessing complete (1 pages)" "w_processed.jpg" 1,
        0, [("w_processed.jpg", gray3 img3)]⟩ ∧
    preprocessModeRun "w.png" id [img3] = preprocessModeRun "w.png" id [img3] ∧
    mainRun .preprocess "w.png" (fun _ => .pdfPages [img3]) id rtW =
      preprocessModeRun "w.png" id [img3] :=
  ⟨(c10_preprocess "w.png" id [img3] (gray3 img3) rfl).1,
   (c10_preprocess "w.png" id [img3] (gray3 img3) rfl).2.1 [img3] rfl rfl,
   (c10_preprocess "w.png" id [img3] (gray3 img3) rfl).2.2
     (fun _ => .pdfPages [img3]) rtW rfl (List.cons_ne_nil img3 [])⟩

end DigiTex
